import Mathlib

/-!
Verification development for the content-pipeline backend
(`backend/app.py`, `backend/firecrawl_extractor.py`,
`backend/gemini_summarizer.py`, `backend/page_processor.py`).

The Python sources are shallowly embedded: pure functions become Lean
functions over `String`/`List Char`/`Nat`/`ℚ`, network and library
effects become explicit environment records, and Python exceptions
become an explicit `Except PyExc` channel.  Python `float` rounding of
`round(n/d)` is modelled exactly (round-half-to-even on the rational
`n/d`, which agrees with the binary-float computation for the divisors
200 and 230 used by the code).
-/

/-- Model of the Python exceptions that the backend code routes on.
`msg` is the text produced by `str(e)`. -/
inductive PyExc where
  | timeout (msg : String)
  | connectionError (msg : String)
  | httpError (status : Nat) (msg : String)
  | jsonDecodeError (msg : String)
  | deadlineExceeded (msg : String)
  | serviceUnavailable (msg : String)
  | resourceExhausted (msg : String)
  | googleApiError (msg : String)
  | httpException (status : Nat) (detail : String)
  | valueError (msg : String)
  | other (msg : String)
deriving DecidableEq

/-- The text `str(e)` of a modelled exception. -/
def PyExc.msg : PyExc → String
  | .timeout m => m
  | .connectionError m => m
  | .httpError _ m => m
  | .jsonDecodeError m => m
  | .deadlineExceeded m => m
  | .serviceUnavailable m => m
  | .resourceExhausted m => m
  | .googleApiError m => m
  | .httpException s d => toString s ++ ": " ++ d
  | .valueError m => m
  | .other m => m

/-- Whether the exception is a `google.api_core.exceptions.GoogleAPICallError`
(the three transient kinds are subclasses of it). -/
def PyExc.isGoogleApiCall : PyExc → Bool
  | .deadlineExceeded _ => true
  | .serviceUnavailable _ => true
  | .resourceExhausted _ => true
  | .googleApiError _ => true
  | _ => false

/-- Python `try: body except Exception: handler` (all modelled exceptions
derive from `Exception`). -/
def tryCatchAll (body : Except PyExc α) (handler : PyExc → Except PyExc α) :
    Except PyExc α :=
  match body with
  | .ok a => .ok a
  | .error e => handler e

/-- Decidable equality of `Except` results, for evaluating the models on
concrete inputs. -/
instance {ε α : Type} [DecidableEq ε] [DecidableEq α] : DecidableEq (Except ε α) := fun a b =>
  match a, b with
  | .ok x, .ok y => if h : x = y then .isTrue (by rw [h]) else .isFalse (by simp [h])
  | .error x, .error y => if h : x = y then .isTrue (by rw [h]) else .isFalse (by simp [h])
  | .ok _, .error _ => .isFalse (by simp)
  | .error _, .ok _ => .isFalse (by simp)

/-- Characters Python treats as whitespace in `str.strip`/`str.split` and
as `\s` in regexes (the ASCII ones plus the common unicode ones; exotic
unicode spaces are out of scope of the modelled inputs). -/
def pySpaceChars : List Char :=
  [' ', '\t', '\n', '\r', '\x0b', '\x0c', '\x1c', '\x1d', '\x1e', '\x85', '\xa0']

def pyIsSpace (c : Char) : Bool := pySpaceChars.contains c

/-- `str.strip()` on the character-list representation. -/
def pyStripList (l : List Char) : List Char :=
  ((l.dropWhile pyIsSpace).reverse.dropWhile pyIsSpace).reverse

def pyStrip (s : String) : String := ⟨pyStripList s.data⟩

/-- `str.lstrip(cs)`: drop the leading characters that belong to `cs`. -/
def pyLstripChars (s : String) (cs : List Char) : String :=
  ⟨s.data.dropWhile (fun c => cs.contains c)⟩

/-- Helper for `str.split()`: accumulate the current token (reversed). -/
def pySplitWsAux : List Char → List Char → List (List Char)
  | [], acc => if acc.isEmpty then [] else [acc.reverse]
  | c :: cs, acc =>
    if pyIsSpace c then
      if acc.isEmpty then pySplitWsAux cs [] else acc.reverse :: pySplitWsAux cs []
    else pySplitWsAux cs (c :: acc)

/-- `str.split()` with no argument: whitespace-run separated tokens,
empties discarded. -/
def pySplitWs (s : String) : List String :=
  (pySplitWsAux s.data []).map (fun l => ⟨l⟩)

/-- Characters that terminate a line for `str.splitlines()`. -/
def pyLineBreakChars : List Char :=
  ['\n', '\r', '\x0b', '\x0c', '\x1c', '\x1d', '\x1e', '\x85', '\u2028', '\u2029']

/-- Helper for `str.splitlines()`; `"\r\n"` counts as a single break and a
trailing break produces no empty final line. -/
def pySplitlinesAux : List Char → List Char → List (List Char)
  | [], acc => if acc.isEmpty then [] else [acc.reverse]
  | '\r' :: '\n' :: cs, acc => acc.reverse :: pySplitlinesAux cs []
  | c :: cs, acc =>
    if pyLineBreakChars.contains c then acc.reverse :: pySplitlinesAux cs []
    else pySplitlinesAux cs (c :: acc)

def pySplitlines (s : String) : List String :=
  (pySplitlinesAux s.data []).map (fun l => ⟨l⟩)

/-- `s.split(sep, 1)` when `sep` occurs: the parts before and after the
first occurrence; `none` when `sep` does not occur. -/
def splitOnFirstAux (sep : List Char) : List Char → Option (List Char × List Char)
  | [] => if sep.isEmpty then some ([], []) else none
  | c :: cs =>
    if sep.isPrefixOf (c :: cs) then some ([], (c :: cs).drop sep.length)
    else (splitOnFirstAux sep cs).map (fun p => (c :: p.1, p.2))

def splitOnFirst (s sep : String) : Option (String × String) :=
  (splitOnFirstAux sep.data s.data).map (fun p => (⟨p.1⟩, ⟨p.2⟩))

/-- Python's `sep in s` substring test. -/
def containsSub (s sep : String) : Bool := (splitOnFirst s sep).isSome

/-- Whether `pre` is a literal prefix of `s`. -/
def strStarts (s pre : String) : Bool := pre.data.isPrefixOf s.data

/-- Python `round(n / d)` for natural `n` and positive `d`:
round-half-to-even on the rational `n/d`.  For `d = 200` and `d = 230`
this agrees with the float computation the code performs. -/
def pyRound (n d : Nat) : Nat :=
  let q := n / d
  let r := n % d
  if 2 * r < d then q
  else if d < 2 * r then q + 1
  else if q % 2 = 0 then q else q + 1

/-- `" ".join(parts)`. -/
def joinSpace (parts : List String) : String := String.intercalate " " parts

/-- `str.lower()` (ASCII; the modelled class names are ASCII). -/
def pyLowerStr (s : String) : String := ⟨s.data.map Char.toLower⟩

/-! ## Retry wrapper (tenacity `@retry`, used by `_make_scrape_request`
and `_generate_with_retry`)

`tenacity.wait_exponential(multiplier, min, max)` computes the sleep after
the `n`-th failed attempt (attempts numbered from 1) as
`max(min, min(multiplier * 2^(n-1), max))` — the exponent is
`attempt_number - 1` in the library source.  `stop_after_attempt(3)` stops
after the third attempt; `reraise=True` re-raises the last exception, and
an exception not matched by `retry_if_exception_type` propagates
immediately. -/

structure RetryPolicy where
  maxAttempts : Nat
  waitAfter : Nat → Nat
  isTransient : PyExc → Bool

/-- `tenacity.wait_exponential(multiplier=mult, min=mn, max=mx)` evaluated
after the failure of attempt number `n` (1-based). -/
def waitExponential (mult mn mx n : Nat) : Nat :=
  Nat.max mn (Nat.min (mult * 2 ^ (n - 1)) mx)

/-- Observable outcome of a retried call: the final result, how many
attempts were made, and the sleeps (in seconds) between attempts. -/
structure RetryTrace (α : Type) where
  result : Except PyExc α
  attemptsMade : Nat
  sleeps : List Nat

/-- One step of the tenacity loop: run attempt `attempt`; on success stop;
on a non-transient exception stop (propagate); on a transient exception
stop once `maxAttempts` is reached, otherwise sleep and retry.  `fuel`
bounds the recursion and is instantiated with `maxAttempts`. -/
def retryGo (p : RetryPolicy) (op : Nat → Except PyExc α) :
    Nat → Nat → List Nat → RetryTrace α
  | 0, attempt, sleeps => ⟨.error (.other "no attempt made"), attempt, sleeps.reverse⟩
  | fuel + 1, attempt, sleeps =>
    match op attempt with
    | .ok a => ⟨.ok a, attempt, sleeps.reverse⟩
    | .error e =>
      if p.isTransient e = false then ⟨.error e, attempt, sleeps.reverse⟩
      else if p.maxAttempts ≤ attempt then ⟨.error e, attempt, sleeps.reverse⟩
      else retryGo p op fuel (attempt + 1) (p.waitAfter attempt :: sleeps)

/-- Run an operation under a retry policy; `op n` is the outcome of the
`n`-th attempt (1-based). -/
def retryRun (p : RetryPolicy) (op : Nat → Except PyExc α) : RetryTrace α :=
  retryGo p op p.maxAttempts 1 []

/-- The decorator on `FireCrawlExtractor._make_scrape_request`:
`stop_after_attempt(3)`, `wait_exponential(multiplier=1, min=2, max=10)`,
retry only on `requests.exceptions.Timeout` / `ConnectionError`. -/
def firecrawlRetryPolicy : RetryPolicy where
  maxAttempts := 3
  waitAfter := waitExponential 1 2 10
  isTransient := fun e =>
    match e with
    | .timeout _ => true
    | .connectionError _ => true
    | _ => false

/-- The decorator on `GeminiSummarizer._generate_with_retry`: same stop and
wait, retry only on `DeadlineExceeded`, `ServiceUnavailable`,
`ResourceExhausted`. -/
def geminiRetryPolicy : RetryPolicy where
  maxAttempts := 3
  waitAfter := waitExponential 1 2 10
  isTransient := fun e =>
    match e with
    | .deadlineExceeded _ => true
    | .serviceUnavailable _ => true
    | .resourceExhausted _ => true
    | _ => false

/-! ## `PageProcessor.clean_content_regex` (page_processor.py)

Each `re.sub` step is embedded as a left-to-right scanner: at every
position it tries to match the pattern (with Python's leftmost /
lazy-vs-greedy semantics, validated against `re` on randomized inputs);
on a match it emits the replacement and resumes after the matched text,
otherwise it emits one character and advances.  All patterns consume at
least one character, so scanning `l` needs at most `l.length` steps and
the scanners take that as structural fuel. -/

/-- `[^)]+\)`: a nonempty run of non-`)` characters then `)`.  Returns the
consumed length. -/
def parenBody (l : List Char) : Option Nat :=
  let n := (l.takeWhile (fun c => c ≠ ')')).length
  if n = 0 then none
  else if n < l.length then some (n + 1)
  else none

/-- After `![`: lazy `(.*?)` (no newline) then `](`, then `[^)]+\)`.
Returns the consumed length after the `![`. -/
def imgAfterBang : List Char → Option Nat
  | [] => none
  | c :: cs =>
    if c = ']' then
      match cs with
      | '(' :: rest =>
        match parenBody rest with
        | some k => some (2 + k)
        | none => (imgAfterBang cs).map (· + 1)
      | _ => (imgAfterBang cs).map (· + 1)
    else if c = '\n' then none
    else (imgAfterBang cs).map (· + 1)

/-- After `[`: lazy group `(.*?)` (no newline) then `](`, then `[^)]+\)`.
Returns the group text and the consumed length after the `[`. -/
def linkAfter : List Char → Option (List Char × Nat)
  | [] => none
  | c :: cs =>
    if c = ']' then
      match cs with
      | '(' :: rest =>
        match parenBody rest with
        | some k => some ([], 2 + k)
        | none => (linkAfter cs).map (fun p => (c :: p.1, p.2 + 1))
      | _ => (linkAfter cs).map (fun p => (c :: p.1, p.2 + 1))
    else if c = '\n' then none
    else (linkAfter cs).map (fun p => (c :: p.1, p.2 + 1))

/-- `[^>]+>`: a nonempty run of non-`>` characters then `>`. -/
def angleBody (l : List Char) : Option Nat :=
  let n := (l.takeWhile (fun c => c ≠ '>')).length
  if n = 0 then none
  else if n < l.length then some (n + 1)
  else none

/-- After `<!--`: lazy `.*?` (DOTALL) up to the first `-->`.  Returns the
consumed length including the `-->`. -/
def commentEnd : List Char → Option Nat
  | '-' :: '-' :: '>' :: _ => some 3
  | _ :: cs => (commentEnd cs).map (· + 1)
  | [] => none

/-- After `[`: `\d+\]` or `citation needed]` or `note \d+\]` (the
alternation of the citation pattern).  Returns the consumed length. -/
def citationAfter (l : List Char) : Option Nat :=
  let ds := (l.takeWhile Char.isDigit).length
  if 0 < ds ∧ (l.drop ds).headD ' ' = ']' ∧ ds < l.length then some (ds + 1)
  else if "citation needed]".data.isPrefixOf l then some 16
  else if "note ".data.isPrefixOf l then
    let l2 := l.drop 5
    let ds2 := (l2.takeWhile Char.isDigit).length
    if 0 < ds2 ∧ (l2.drop ds2).headD ' ' = ']' ∧ ds2 < l2.length then some (5 + ds2 + 1)
    else none
  else none

/-- A pattern matcher at one position: on success returns the replacement
text and the number of consumed characters (always ≥ 1). -/
def MatcherT : Type := List Char → Option (List Char × Nat)

/-- Generic `re.sub` scanner: try the matcher at each position; emit the
replacement and skip the match, or emit one character and advance. -/
def scanSub (m : MatcherT) : Nat → List Char → List Char
  | 0, l => l
  | _ + 1, [] => []
  | fuel + 1, c :: cs =>
    match m (c :: cs) with
    | some (rep, k) => rep ++ scanSub m fuel ((c :: cs).drop k)
    | none => c :: scanSub m fuel cs

/-- `re.sub(r'!\[(.*?)\]\([^)]+\)', '', ...)`: markdown images. -/
def imageMatcher : MatcherT := fun l =>
  match l with
  | c :: d :: rest =>
    if c = '!' ∧ d = '[' then (imgAfterBang rest).map (fun k => ([], 2 + k))
    else none
  | _ => none

/-- `re.sub(r'\[(.*?)\]\([^)]+\)', r'\1', ...)`: links replaced by their
text. -/
def linkMatcher : MatcherT := fun l =>
  match l with
  | c :: rest =>
    if c = '[' then (linkAfter rest).map (fun p => (p.1, 1 + p.2))
    else none
  | _ => none

/-- `re.sub(r'<img[^>]+>', '', ...)`: HTML image tags. -/
def imgTagMatcher : MatcherT := fun l =>
  match l with
  | c1 :: c2 :: c3 :: c4 :: rest =>
    if c1 = '<' ∧ c2 = 'i' ∧ c3 = 'm' ∧ c4 = 'g' then
      (angleBody rest).map (fun k => ([], 4 + k))
    else none
  | _ => none

/-- `re.sub(r'\{\{[^}]+\}\}', '', ...)`: wiki-style templates. -/
def templateMatcher : MatcherT := fun l =>
  match l with
  | c :: d :: rest =>
    if c = '{' ∧ d = '{' then
      if 0 < (rest.takeWhile (fun x => x ≠ '}')).length ∧
          (rest.drop (rest.takeWhile (fun x => x ≠ '}')).length).headD ' ' = '}' ∧
          ((rest.drop (rest.takeWhile (fun x => x ≠ '}')).length).drop 1).headD ' ' = '}'
      then some ([], 2 + (rest.takeWhile (fun x => x ≠ '}')).length + 2)
      else none
    else none
  | _ => none

/-- `re.sub(r'<!--.*?-->', '', ..., flags=re.DOTALL)`: HTML comments. -/
def commentMatcher : MatcherT := fun l =>
  match l with
  | c1 :: c2 :: c3 :: c4 :: rest =>
    if c1 = '<' ∧ c2 = '!' ∧ c3 = '-' ∧ c4 = '-' then
      (commentEnd rest).map (fun k => ([], 4 + k))
    else none
  | _ => none

/-- `re.sub(r'\[\d+\]|\[citation needed\]|\[note \d+\]', '', ...)`. -/
def citationMatcher : MatcherT := fun l =>
  match l with
  | c :: rest =>
    if c = '[' then (citationAfter rest).map (fun k => ([], 1 + k))
    else none
  | _ => none

/-- `re.sub(r'-{3,}', '---', ...)`: horizontal rules. -/
def hrMatcher : MatcherT := fun l =>
  match l with
  | c :: _ =>
    if c = '-' then
      if 3 ≤ (l.takeWhile (fun x => x = '-')).length then
        some (['-', '-', '-'], (l.takeWhile (fun x => x = '-')).length)
      else none
    else none
  | _ => none

/-- `re.sub(r'\|\s*-+\s*\|', '\n', ...)`: table header separators. -/
def tableHdrBody (rest : List Char) : Option (List Char × Nat) :=
  let a := (rest.takeWhile pyIsSpace).length
  let r2 := rest.drop a
  let d := (r2.takeWhile (fun c => c = '-')).length
  let r3 := r2.drop d
  let b := (r3.takeWhile pyIsSpace).length
  if 0 < d ∧ (r3.drop b).headD ' ' = '|' then some (['\n'], 1 + a + d + b + 1)
  else none

def tableHdrMatcher : MatcherT := fun l =>
  match l with
  | c :: rest => if c = '|' then tableHdrBody rest else none
  | _ => none

/-- `re.sub(r'\|\s*', ' ', ...)`: table cell pipes. -/
def pipeMatcher : MatcherT := fun l =>
  match l with
  | c :: rest =>
    if c = '|' then some ([' '], 1 + (rest.takeWhile pyIsSpace).length)
    else none
  | _ => none

/-- `re.sub(r'\n{3,}', '\n\n', ...)`: blank-line runs. -/
def nlMatcher : MatcherT := fun l =>
  match l with
  | c :: _ =>
    if c = '\n' then
      if 3 ≤ (l.takeWhile (fun x => x = '\n')).length then
        some (['\n', '\n'], (l.takeWhile (fun x => x = '\n')).length)
      else none
    else none
  | _ => none

/-- Apply one `re.sub` step to a string. -/
def runSub (m : MatcherT) (s : String) : String :=
  ⟨scanSub m s.data.length s.data⟩

/-- `PageProcessor.clean_content_regex`: the ten `re.sub` steps applied in
source order. -/
def clean_content_regex (content : String) : String :=
  runSub nlMatcher
    (runSub pipeMatcher
      (runSub tableHdrMatcher
        (runSub hrMatcher
          (runSub citationMatcher
            (runSub commentMatcher
              (runSub templateMatcher
                (runSub imgTagMatcher
                  (runSub linkMatcher
                    (runSub imageMatcher content)))))))))

/-- Characters that cannot start any of the ten patterns: letters and the
plain space.  Strings over these characters are fixed points of every
cleaning step. -/
def plainChar (c : Char) : Bool := c.isAlpha || c = ' '

/-! ## `GeminiSummarizer.summarize` (gemini_summarizer.py) -/

/-- The parsed summary payload built by `summarize` from the raw model
response (`full_response_text`). -/
structure SummaryFields where
  summary : String
  keyPoints : List String
  wordCount : Nat
  readingTime : Nat
deriving DecidableEq

/-- The literal separator the prompt asks the model to emit. -/
def kpSeparator : String := "---KEYPOINTS---"

/-- One line qualifies as a key point when its stripped form is non-empty
and starts with `*` or `-`. -/
def isBulletLine (l : String) : Bool :=
  (pyStrip l != "") && (strStarts (pyStrip l) "*" || strStarts (pyStrip l) "-")

/-- The key-point extraction applied to `parts[1].strip()`:
`[line.strip().lstrip('*-').strip() for line in lines if ...]` followed by
discarding empties. -/
def bulletLines (keyPointsText : String) : List String :=
  (((pySplitlines keyPointsText).filter isBulletLine).map
    (fun l => pyStrip (pyLstripChars (pyStrip l) ['*', '-']))).filter
      (fun p => p != "")

/-- Response-parsing section of `summarize` (lines 133–189): split on the
first separator occurrence, strip, collect bullet lines; fall back to the
full response when the separator is absent or the pre-separator text
strips to empty; then word count and reading time (230 wpm). -/
def summarizeParse (full : String) : SummaryFields :=
  let parsed :=
    match splitOnFirst full kpSeparator with
    | some (before, after) => (pyStrip before, bulletLines (pyStrip after))
    | none => (full, [])
  let summary := if parsed.1 = "" then full else parsed.1
  let wc := (pySplitWs summary).length
  { summary := summary, keyPoints := parsed.2, wordCount := wc,
    readingTime := pyRound wc 230 }

/-- Input truncation applied before prompting (`max_input_chars = 30000`). -/
def truncateContent (content : String) : String :=
  if 30000 < content.length then content.take 30000 ++ "..." else content

/-- Outcome of the (retried) Gemini generate call, supplied by the
environment. -/
inductive GemOutcome where
  | ok (text : String)
  | raise (e : PyExc)

/-- The returned dict of a successful `summarize` call. -/
structure SummaryOut where
  success : Bool
  fields : SummaryFields
  title : String
deriving DecidableEq

/-- The HTTP exception `summarize`'s except-clauses raise when the model
call failed: 502 for a `GoogleAPICallError` surviving the retries, 500
for any other exception. -/
def geminiFailureExc (e : PyExc) : PyExc :=
  if e.isGoogleApiCall then
    .httpException 502 ("Failed to generate summary (Gemini API error): " ++ e.msg)
  else
    .httpException 500 ("Unexpected error during summary generation: " ++ e.msg)

/-- `GeminiSummarizer.summarize`: missing API key raises an HTTP 500;
a failing model call raises `geminiFailureExc`; otherwise the parsed
response is returned with `success = True`. -/
def gemini_summarize (apiKeyPresent : Bool) (gem : GemOutcome)
    (title : String) : Except PyExc SummaryOut :=
  match apiKeyPresent, gem with
  | false, _ => .error (.httpException 500 "Gemini API key not configured")
  | true, .raise e => .error (geminiFailureExc e)
  | true, .ok full =>
    .ok { success := true, fields := summarizeParse full, title := title }

/-! ## `fire_crawl_scrape` and `_local_scrape_fallback` (app.py) -/

/-- The `{title, html, markdown}` result of the local scraper. -/
structure ScrapeDoc where
  title : String
  html : String
  markdown : String
deriving DecidableEq

/-- Stand-in for the raw JSON body returned verbatim from the remote
FireCrawl service. -/
structure RemoteJson where
  raw : String
deriving DecidableEq

/-- Outcome of `requests.post` to the FireCrawl API: the call raised, or a
response arrived with a status code and a `response.json()` outcome. -/
inductive RemoteOutcome where
  | raised (e : PyExc)
  | resp (status : Nat) (body : Except PyExc RemoteJson)

/-- Response of the local `requests.get`. -/
structure LocalResp where
  status : Nat

/-- Environment of one `fire_crawl_scrape` call: API-key configuration,
the remote call's outcome, and the outcomes of the local scraper's GET
and of its BeautifulSoup parsing/markdown synthesis (the latter is
library-heavy and supplied as an outcome; it may raise, e.g. `int()` on a
non-numeric width attribute). -/
structure AppScrapeEnv where
  hasKey : Bool
  remote : RemoteOutcome
  localGet : Except PyExc LocalResp
  localBuild : Except PyExc ScrapeDoc

/-- `response.raise_for_status()`: raises `HTTPError` on a 4xx/5xx code. -/
def raiseForStatus (r : LocalResp) : Except PyExc LocalResp :=
  if 400 ≤ r.status then
    .error (.httpError r.status ("HTTP error " ++ toString r.status))
  else .ok r

/-- The minimal placeholder result of `_local_scrape_fallback`'s except
branch. -/
def scrapePlaceholder (e : PyExc) : ScrapeDoc where
  title := "Error Scraping Content"
  html := "<div><p>Error scraping content: " ++ e.msg ++ "</p></div>"
  markdown := "Error scraping content: " ++ e.msg

/-- The try-block of `_local_scrape_fallback`: GET the page, raise for bad
status, then parse and synthesize the document. -/
def localScrapeFallbackBody (env : AppScrapeEnv) : Except PyExc ScrapeDoc := do
  let r ← env.localGet
  let _ ← raiseForStatus r
  env.localBuild

/-- `_local_scrape_fallback`: the whole body is wrapped in
`try ... except Exception` returning the placeholder document. -/
def localScrapeFallbackE (env : AppScrapeEnv) : Except PyExc ScrapeDoc :=
  tryCatchAll (localScrapeFallbackBody env) (fun e => .ok (scrapePlaceholder e))

/-- What `fire_crawl_scrape` returns: the remote JSON passed through, or a
local-scrape document. -/
inductive AppScrapeResult where
  | remote (json : RemoteJson)
  | doc (d : ScrapeDoc)
deriving DecidableEq

/-- `fire_crawl_scrape`: no API key, a raised request, a non-200 status or
a JSON-decode failure all route to `_local_scrape_fallback`; only an
HTTP 200 with decodable JSON is passed through. -/
def fire_crawl_scrape (env : AppScrapeEnv) : Except PyExc AppScrapeResult :=
  if env.hasKey = false then (localScrapeFallbackE env).map AppScrapeResult.doc
  else
    tryCatchAll
      (match env.remote with
       | .raised e => .error e
       | .resp status body =>
         if status ≠ 200 then (localScrapeFallbackE env).map AppScrapeResult.doc
         else
           match body with
           | .error e => .error e
           | .ok j => .ok (.remote j))
      (fun _ => (localScrapeFallbackE env).map AppScrapeResult.doc)

/-! ## `PageProcessor.process_page` (page_processor.py) -/

/-- The `data` payload of a successful extraction:
`{markdown?, html?, metadata:{title?}}`. -/
structure ScrapeData where
  markdown : Option String
  html : Option String
  metaTitle : Option String
deriving DecidableEq

/-- Outcome of `self.extractor.scrape` (firecrawl_extractor.py), which
always returns a tagged dict and never raises. -/
inductive ExtractOutcome where
  | ok (data : ScrapeData)
  | err (error : String)

/-- Environment of one `process_page` call.  `mdClean` models
`PageProcessor.extract_text_from_markdown`, whose tokenizer is the
external `markdown_it` library; the claims about `process_page` treat it
as an opaque cleaner. -/
structure PipelineEnv where
  url : String
  extract : ExtractOutcome
  mdClean : String → String
  apiKeyPresent : Bool
  gem : GemOutcome

/-- The externally returned envelope: a success dict with url / title /
summary / keyPoints / wordCount / readingTime / content, or a failure
dict carrying only an error string. -/
inductive PipelineResult where
  | ok (url title summary : String) (keyPoints : List String)
       (wordCount readingTime : Nat) (content : ScrapeData)
  | fail (error : String)
deriving DecidableEq

/-- The envelope's recomputed word count:
`word_count = len(summary_text.split())` when the summary is non-empty,
else 0. -/
def envelopeWordCount (summaryText : String) : Nat :=
  if summaryText = "" then 0 else (pySplitWs summaryText).length

/-- The envelope's recomputed reading time:
`round(word_count / 200) if word_count > 0 else 0` when the summary is
non-empty, else 0. -/
def envelopeReadingTime (summaryText : String) : Nat :=
  if summaryText = "" then 0
  else if 0 < envelopeWordCount summaryText then
    pyRound (envelopeWordCount summaryText) 200
  else 0

/-- The tail of `process_page` once the content to summarize is fixed:
summarize, then recompute word count and reading time (200 wpm) for the
envelope; summarizer exceptions are caught and become failure dicts. -/
def processWithContent (env : PipelineEnv) (data : ScrapeData) (title : String)
    (content : String) : PipelineResult :=
  if content = "" then .fail "Content empty after cleaning"
  else
    match gemini_summarize env.apiKeyPresent env.gem title with
    | .error e => .fail e.msg
    | .ok sOut =>
      .ok env.url title sOut.fields.summary sOut.fields.keyPoints
        (envelopeWordCount sOut.fields.summary)
        (envelopeReadingTime sOut.fields.summary) data

/-- Python truthiness of an optional string field of `data`: present and
non-empty. -/
def hasContentStr : Option String → Bool
  | some m => m != ""
  | none => false

/-- `PageProcessor.process_page`: extraction failures are returned as-is;
markdown content (preferred) goes through the aggressive markdown
cleaner, HTML through `clean_content_regex`; empty cleaned content and
missing content are failures; otherwise the summary envelope is built. -/
def process_page (env : PipelineEnv) : PipelineResult :=
  match env.extract with
  | .err e => .fail e
  | .ok data =>
    if hasContentStr data.markdown then
      processWithContent env data ((data.metaTitle).getD "")
        (env.mdClean ((data.markdown).getD ""))
    else if hasContentStr data.html then
      processWithContent env data ((data.metaTitle).getD "")
        (clean_content_regex ((data.html).getD ""))
    else .fail "No content extracted"

/-! ## `extractive_summarization` (app.py)

`sent_tokenize` (NLTK) supplies the sentence list and `networkx.pagerank`
the score of each sentence index; both are external libraries, so the
embedding takes the tokenized sentences and the score assignment as
inputs and models the selection logic of the source: sort the
`(score, index, sentence)` triples descending, take the first
`num_sentences`, re-sort those by original index ascending, join with
spaces. -/

structure RankedSent where
  score : ℚ
  idx : Nat
  sent : String
deriving DecidableEq

/-- Descending order on `(scores[i], i, s)` triples as produced by
`sorted(..., reverse=True)`; the sentence component never decides the
order because indices are distinct. -/
def rankDescRel (a b : RankedSent) : Prop :=
  b.score < a.score ∨ (a.score = b.score ∧ b.idx ≤ a.idx)

instance : DecidableRel rankDescRel := fun a b => by
  unfold rankDescRel; infer_instance

instance : IsTrans RankedSent rankDescRel where
  trans a b c hab hbc := by
    rcases hab with h1 | ⟨h1, h1i⟩ <;> rcases hbc with h2 | ⟨h2, h2i⟩
    · exact Or.inl (lt_trans h2 h1)
    · exact Or.inl (by rw [← h2]; exact h1)
    · exact Or.inl (by rw [h1]; exact h2)
    · exact Or.inr ⟨h1.trans h2, le_trans h2i h1i⟩

instance : IsTotal RankedSent rankDescRel where
  total a b := by
    rcases lt_trichotomy a.score b.score with h | h | h
    · exact Or.inr (Or.inl h)
    · rcases Nat.le_total b.idx a.idx with hi | hi
      · exact Or.inl (Or.inr ⟨h, hi⟩)
      · exact Or.inr (Or.inr ⟨h.symm, hi⟩)
    · exact Or.inl (Or.inl h)

/-- Ascending order on the original sentence position, used by
`sorted(ranked_sentences[:num], key=lambda x: x[1])`. -/
def idxLeRel (a b : RankedSent) : Prop := a.idx ≤ b.idx

instance : DecidableRel idxLeRel := fun a b => by
  unfold idxLeRel; infer_instance

instance : IsTrans RankedSent idxLeRel where
  trans _ _ _ hab hbc := le_trans hab hbc

instance : IsTotal RankedSent idxLeRel where
  total a b := Nat.le_total a.idx b.idx

/-- `enumerate(sentences)` paired with the score assignment. -/
def enumRanked (sentences : List String) (scores : Nat → ℚ) : List RankedSent :=
  sentences.enum.map (fun p => ⟨scores p.1, p.1, p.2⟩)

/-- `extractive_summarization(text, num_sentences)` after tokenization:
`num_sentences` is 5 at every call site. -/
def extractive_summarization (sentences : List String) (scores : Nat → ℚ)
    (numSentences : Nat) : String :=
  if sentences.length ≤ numSentences then joinSpace sentences
  else
    let ranked := List.insertionSort rankDescRel (enumRanked sentences scores)
    let chosen := List.insertionSort idxLeRel (ranked.take numSentences)
    joinSpace (chosen.map RankedSent.sent)

/-! ## `sentence_similarity` (app.py) -/

/-- `[word.lower() for word in sent.split() if word.lower() not in stop_words]`. -/
def filteredWords (sent : String) (stop : List String) : List String :=
  ((pySplitWs sent).map pyLowerStr).filter (fun w => !(stop.contains w))

/-- `list(set(words1 + words2))`; the set's iteration order is
unspecified in Python, modelled as first-occurrence order (the cosine
value is invariant under the order). -/
def simAllWords (w1 w2 : List String) : List String := (w1 ++ w2).dedup

/-- The word-frequency vector the index-increment loop builds. -/
def freqVec (words allW : List String) : List Nat :=
  allW.map (fun w => words.count w)

/-- `sum(v1 * v2 for ...)`. -/
def sumDot (v1 v2 : List Nat) : Nat := (List.zipWith (fun a b => a * b) v1 v2).sum

/-- `sum(v**2 for v in vector)` (the radicand of `sum1` / `sum2`). -/
def sumSq (v : List Nat) : Nat := (v.map (fun x => x * x)).sum

/-- `vector1` of `sentence_similarity`. -/
def simVec1 (sent1 sent2 : String) (stop : List String) : List Nat :=
  freqVec (filteredWords sent1 stop)
    (simAllWords (filteredWords sent1 stop) (filteredWords sent2 stop))

/-- `vector2` of `sentence_similarity`. -/
def simVec2 (sent1 sent2 : String) (stop : List String) : List Nat :=
  freqVec (filteredWords sent2 stop)
    (simAllWords (filteredWords sent1 stop) (filteredWords sent2 stop))

open Classical in
/-- `sentence_similarity(sent1, sent2, stop_words)`: the guarded cosine,
`sum_dot / (sum1 * sum2)` when both `sum1 = sqrt(Σ v1²)` and
`sum2 = sqrt(Σ v2²)` are positive, `0` otherwise. -/
noncomputable def sentence_similarity (sent1 sent2 : String) (stop : List String) : ℝ :=
  if 0 < Real.sqrt (sumSq (simVec1 sent1 sent2 stop)) ∧
      0 < Real.sqrt (sumSq (simVec2 sent1 sent2 stop)) then
    (sumDot (simVec1 sent1 sent2 stop) (simVec2 sent1 sent2 stop) : ℝ) /
      (Real.sqrt (sumSq (simVec1 sent1 sent2 stop)) *
        Real.sqrt (sumSq (simVec2 sent1 sent2 stop)))
  else 0

/-! ## Image filtering in `_local_scrape_fallback` (app.py, lines 280–312) -/

/-- The attributes of one `<img>` element that the filter inspects; the
width/height attributes are taken as parsed integers (`int(width)`),
`none` when the attribute is absent or empty. -/
structure ImgTag where
  width : Option Nat
  height : Option Nat
  classes : List String
  parentClasses : List String
deriving DecidableEq

def adRelatedTerms : List String :=
  ["ad", "ads", "advertisement", "banner", "promo", "sidebar", "tracking"]

/-- `width and height and int(width) < 50 and int(height) < 50`. -/
def isTinyImg (img : ImgTag) : Bool :=
  match img.width, img.height with
  | some w, some h => decide (w < 50) && decide (h < 50)
  | _, _ => false

/-- `any(any(term in cls.lower() for term in ad_related_terms) for cls in
img_classes + parent_classes)`. -/
def hasAdClass (img : ImgTag) : Bool :=
  (img.classes ++ img.parentClasses).any
    (fun cls => adRelatedTerms.any (fun t => containsSub (pyLowerStr cls) t))

/-- Whether the loop `decompose`s (drops) the image. -/
def imgDropped (img : ImgTag) : Bool := isTinyImg img || hasAdClass img

/-- The images that survive the filtering loop. -/
def keptImages (imgs : List ImgTag) : List ImgTag :=
  imgs.filter (fun i => !imgDropped i)

/-! ## Concrete fixtures and environments used by the claim theorems -/

/-- The separator-parsing fixture from the spec's testable properties. -/
def fixtureResponse : String := "## A\ntext\n---KEYPOINTS---\n* one\n* two"

/-- A response that starts with the separator (pre-separator text strips
to empty). -/
def sepFirstResponse : String := "---KEYPOINTS---\n* one"

/-- A pipeline environment whose model call returns the empty response. -/
def emptyResponseEnv : PipelineEnv where
  url := "https://example.com/article"
  extract := .ok ⟨none, some "body text", none⟩
  mdClean := fun s => s
  apiKeyPresent := true
  gem := .ok ""

/-- A pipeline environment whose model call returns a two-word response. -/
def okResponseEnv : PipelineEnv where
  url := "https://example.com/article"
  extract := .ok ⟨none, some "body text", none⟩
  mdClean := fun s => s
  apiKeyPresent := true
  gem := .ok "hello world"

/-- A 101-word response: `round(101/200) = 1` but `round(101/230) = 0`,
separating the envelope's 200-wpm reading time from the claimed 230. -/
def response101 : String := joinSpace (List.replicate 101 "w")

/-- A pipeline environment whose model call returns `response101`. -/
def wordCountEnv : PipelineEnv where
  url := "https://example.com/article"
  extract := .ok ⟨none, some "body text", none⟩
  mdClean := fun s => s
  apiKeyPresent := true
  gem := .ok response101

/-- A scrape environment in which the remote call raises and the local
scraper's GET also fails: total failure of both paths. -/
def allFailEnv : AppScrapeEnv where
  hasKey := true
  remote := .raised (.timeout "request timed out")
  localGet := .error (.connectionError "connection refused")
  localBuild := .error (.other "not reached")

/-- Six one-word sentences for the extractive-summarization witness. -/
def sixSentences : List String := ["s0.", "s1.", "s2.", "s3.", "s4.", "s5."]

/-- A score assignment making later sentences rank higher. -/
def sixScores : Nat → ℚ := fun i => mkRat (Int.ofNat i) 1

/-! ## Claim theorems -/

/-- C1: the retry wrappers make exactly 3 attempts on a persistently
transient failure and then propagate the final exception, and a
non-transient exception propagates after a single attempt; but the
inter-attempt sleeps produced by
`wait_exponential(multiplier=1, min=2, max=10)` are 2s and 2s, not the
claimed 2s and 4s: tenacity computes
`max(min, min(multiplier * 2^(n-1), max))` after the `n`-th failed
attempt, giving the sequence 2, 2, 4, 8, 10, 10, … (always capped at
10s).  This contradicts the source's own inline comment
`# Wait 2s, 4s, 8s (max 10s)` next to the decorator. -/
theorem C1_retry_three_attempts_sleeps_2_2 :
    retryRun firecrawlRetryPolicy
        (fun _ => (.error (.timeout "t") : Except PyExc RemoteJson)) =
      ⟨.error (.timeout "t"), 3, [2, 2]⟩ ∧
    retryRun geminiRetryPolicy
        (fun _ => (.error (.resourceExhausted "r") : Except PyExc String)) =
      ⟨.error (.resourceExhausted "r"), 3, [2, 2]⟩ ∧
    retryRun firecrawlRetryPolicy
        (fun _ => (.error (.httpError 500 "server error") : Except PyExc RemoteJson)) =
      ⟨.error (.httpError 500 "server error"), 1, []⟩ ∧
    waitExponential 1 2 10 1 = 2 ∧ waitExponential 1 2 10 2 = 2 ∧
    waitExponential 1 2 10 3 = 4 ∧ waitExponential 1 2 10 4 = 8 ∧
    (∀ n, waitExponential 1 2 10 n ≤ 10) ∧
    ([2, 2] ≠ ([2, 4] : List Nat)) := by
  refine ⟨rfl, rfl, rfl, rfl, rfl, rfl, rfl, ?_, by decide⟩
  intro n
  unfold waitExponential
  exact Nat.max_le.mpr ⟨by norm_num, Nat.min_le_right _ _⟩

/-- C9 (amended): an image is dropped iff its (present, numeric) width
and height are both strictly less than 50, or its own class or an
ancestor's class contains one of the ad-related terms as a substring;
and the kept-image list contains exactly the images that are not
dropped.  (The claim's "at most 50" is wrong: the source tests
`int(width) < 50 and int(height) < 50`, so a 50×50 image is kept — see
the counterexample.) -/
theorem C9_image_filter_characterization (img : ImgTag) :
    (imgDropped img = true ↔
      ((∃ w h, img.width = some w ∧ img.height = some h ∧ w < 50 ∧ h < 50) ∨
        ∃ cls ∈ img.classes ++ img.parentClasses, ∃ t ∈ adRelatedTerms,
          containsSub (pyLowerStr cls) t = true)) ∧
    (∀ imgs : List ImgTag, img ∈ keptImages imgs ↔ img ∈ imgs ∧ imgDropped img = false) := by
  constructor
  · obtain ⟨w, h, cls, pcls⟩ := img
    cases w <;> cases h <;>
      simp [imgDropped, isTinyImg, hasAdClass, List.any_eq_true, or_and_right, exists_or]
  · intro imgs
    simp [keptImages, List.mem_filter]

/-- C9 counterexample: a 50×50 image (both attributes at most 50, as the
claim requires) with no ad-related classes is not dropped. -/
theorem C9_counterexample_50x50_kept :
    imgDropped ⟨some 50, some 50, [], []⟩ = false ∧ 50 ≤ 50 := by decide

/-- C5 (amended): for a response containing the separator, provided the
text before the first occurrence is non-empty after stripping, the
parsed summary is exactly that stripped prefix and the key points are
exactly the lines after the separator whose stripped form starts with
`*` or `-`, with the leading marker characters stripped, trimmed, and
empty entries discarded.  (Without the proviso the code falls back to
the whole response — see the counterexample.) -/
theorem C5_separator_parsing (full before after : String)
    (hsplit : splitOnFirst full kpSeparator = some (before, after))
    (hne : pyStrip before ≠ "") :
    (summarizeParse full).summary = pyStrip before ∧
    (summarizeParse full).keyPoints = bulletLines (pyStrip after) := by
  unfold summarizeParse
  simp [hsplit, hne]

/-- C5 witness: the spec's fixture response parses to summary
`"## A\ntext"` and key points `["one", "two"]`. -/
theorem C5_witness_fixture :
    (summarizeParse fixtureResponse).summary = "## A\ntext" ∧
    (summarizeParse fixtureResponse).keyPoints = ["one", "two"] := by
  have h := C5_separator_parsing fixtureResponse "## A\ntext\n" "\n* one\n* two"
    (by decide) (by decide)
  exact ⟨h.1.trans (by decide), h.2.trans (by decide)⟩

/-- C5 counterexample: a response that contains the separator but whose
pre-separator text strips to empty; the claim says the summary is the
stripped text before the separator (i.e. `""`), but the code returns the
entire response as the summary. -/
theorem C5_counterexample_blank_prefix :
    containsSub sepFirstResponse kpSeparator = true ∧
    splitOnFirst sepFirstResponse kpSeparator = some ("", "\n* one") ∧
    (summarizeParse sepFirstResponse).summary = sepFirstResponse ∧
    (summarizeParse sepFirstResponse).summary ≠ pyStrip "" := by decide

/-- C6: when the separator does not occur in the model response, the
summarizer returns the entire response as the summary with an empty
key-point list, still as a `success = True` result (an `.ok` value, not
a raised exception). -/
theorem C6_no_separator_full_summary (full title : String)
    (h : containsSub full kpSeparator = false) :
    gemini_summarize true (.ok full) title =
      .ok { success := true,
            fields := { summary := full, keyPoints := [],
                        wordCount := (pySplitWs full).length,
                        readingTime := pyRound (pySplitWs full).length 230 },
            title := title } := by
  have hn : splitOnFirst full kpSeparator = none := by
    unfold containsSub at h
    exact Option.not_isSome_iff_eq_none.mp (by simp [h])
  unfold gemini_summarize summarizeParse
  simp [hn, ite_self]

/-- C6 witness: concrete separator-free response. -/
theorem C6_witness :
    containsSub "plain response" kpSeparator = false ∧
    gemini_summarize true (.ok "plain response") "T" =
      .ok ⟨true, ⟨"plain response", [], 2, 0⟩, "T"⟩ :=
  ⟨by decide,
    (C6_no_separator_full_summary "plain response" "T" (by decide)).trans (by decide)⟩

/-- Inversion helper: a success envelope of `processWithContent`
determines all of its fields from the environment. -/
theorem processWithContent_ok_inv (env : PipelineEnv) (data : ScrapeData)
    (title content : String) (u t s : String) (k : List String) (w r : Nat)
    (d : ScrapeData)
    (h : processWithContent env data title content = .ok u t s k w r d) :
    ∃ full, env.gem = .ok full ∧ env.apiKeyPresent = true ∧
      u = env.url ∧ t = title ∧ d = data ∧
      s = (summarizeParse full).summary ∧
      k = (summarizeParse full).keyPoints ∧
      w = envelopeWordCount s ∧ r = envelopeReadingTime s ∧
      content ≠ "" := by
  unfold processWithContent at h
  split at h
  · exact absurd h (by simp)
  next hcne =>
    unfold gemini_summarize at h
    rcases ha : env.apiKeyPresent <;> rw [ha] at h
    · simp at h
    · rcases hgem : env.gem with full | e2 <;> rw [hgem] at h
      · simp only [PipelineResult.ok.injEq] at h
        obtain ⟨rfl, rfl, rfl, rfl, rfl, rfl, rfl⟩ := h
        exact ⟨full, rfl, rfl, rfl, rfl, rfl, rfl, rfl, rfl, rfl, hcne⟩
      · simp at h

/-- Inversion helper shared by C3 and C4: a success envelope of
`process_page` determines all of its fields from the environment. -/
theorem process_page_ok_inv (env : PipelineEnv) (u t s : String)
    (k : List String) (w r : Nat) (d : ScrapeData)
    (h : process_page env = .ok u t s k w r d) :
    ∃ data full, env.extract = .ok data ∧ env.gem = .ok full ∧
      env.apiKeyPresent = true ∧
      u = env.url ∧ t = data.metaTitle.getD "" ∧ d = data ∧
      s = (summarizeParse full).summary ∧
      k = (summarizeParse full).keyPoints ∧
      w = envelopeWordCount s ∧ r = envelopeReadingTime s := by
  unfold process_page at h
  split at h
  · exact absurd h (by simp)
  next data heq =>
    refine ⟨data, ?_⟩
    split at h
    · obtain ⟨full, hfull, hkey, h1, h2, h3, h4, h5, h6, h7, _⟩ :=
        processWithContent_ok_inv env data _ _ u t s k w r d h
      exact ⟨full, heq, hfull, hkey, h1, h2, h3, h4, h5, h6, h7⟩
    · split at h
      · obtain ⟨full, hfull, hkey, h1, h2, h3, h4, h5, h6, h7, _⟩ :=
          processWithContent_ok_inv env data _ _ u t s k w r d h
        exact ⟨full, heq, hfull, hkey, h1, h2, h3, h4, h5, h6, h7⟩
      · exact absurd h (by simp)

/-- Helper: failure envelopes of `processWithContent` carry one of the
pipeline's error messages. -/
theorem processWithContent_fail_inv (env : PipelineEnv) (data : ScrapeData)
    (title content e : String)
    (h : processWithContent env data title content = .fail e) :
    e = "Content empty after cleaning" ∨ ∃ ex : PyExc, e = ex.msg := by
  unfold processWithContent at h
  split at h
  · exact Or.inl (PipelineResult.fail.inj h).symm
  · split at h
    · exact Or.inr ⟨_, (PipelineResult.fail.inj h).symm⟩
    · exact absurd h (by simp)

/-- Helper: failure envelopes of `process_page` carry the extractor's
error or one of the orchestrator's error messages. -/
theorem process_page_fail_inv (env : PipelineEnv) (e : String)
    (h : process_page env = .fail e) :
    env.extract = .err e ∨ e = "No content extracted" ∨
    e = "Content empty after cleaning" ∨ ∃ ex : PyExc, e = ex.msg := by
  unfold process_page at h
  split at h
  next e2 heq =>
    obtain rfl := PipelineResult.fail.inj h
    exact Or.inl heq
  next data heq =>
    split at h
    · rcases processWithContent_fail_inv env data _ _ e h with h1 | h2
      · exact Or.inr (Or.inr (Or.inl h1))
      · exact Or.inr (Or.inr (Or.inr h2))
    · split at h
      · rcases processWithContent_fail_inv env data _ _ e h with h1 | h2
        · exact Or.inr (Or.inr (Or.inl h1))
        · exact Or.inr (Or.inr (Or.inr h2))
      · exact Or.inr (Or.inl (PipelineResult.fail.inj h).symm)

/-- Helper: the parsed summary is non-empty whenever the raw response
is non-empty. -/
theorem summarizeParse_summary_ne (full : String) (h : full ≠ "") :
    (summarizeParse full).summary ≠ "" := by
  unfold summarizeParse
  simp only
  split
  next => exact h
  next hp => exact hp

/-- Helper: the envelope's word count is the whitespace-token count of
the summary in all cases. -/
theorem envelopeWordCount_eq (s : String) :
    envelopeWordCount s = (pySplitWs s).length := by
  unfold envelopeWordCount
  split
  next h => rw [h]; rfl
  next => rfl

/-- Helper: the envelope's reading time in terms of its word count. -/
theorem envelopeReadingTime_eq (s : String) :
    envelopeReadingTime s =
      if 0 < envelopeWordCount s then pyRound (envelopeWordCount s) 200 else 0 := by
  unfold envelopeReadingTime envelopeWordCount
  split
  next h => simp [h]
  next h => rfl

/-- C3 (amended): a success envelope of `process_page` carries the
request URL as its `url` field, the scraped metadata title as its
`title`, and the summarizer's parsed summary, which is non-empty
whenever the model's raw response text is non-empty (the claim's
unconditional "non-empty summary" fails when the model returns an empty
response — see the counterexample); a failure envelope carries only an
error message: the extractor's own error or one of the pipeline's
error strings. -/
theorem C3_success_and_failure_envelopes (env : PipelineEnv) :
    (∀ u t s k w r d, process_page env = .ok u t s k w r d →
        u = env.url ∧
        (∃ data, env.extract = .ok data ∧ t = data.metaTitle.getD "") ∧
        (∃ full, env.gem = .ok full ∧ s = (summarizeParse full).summary ∧
          (full ≠ "" → s ≠ ""))) ∧
    (∀ e, process_page env = .fail e →
        env.extract = .err e ∨ e = "No content extracted" ∨
        e = "Content empty after cleaning" ∨ ∃ ex : PyExc, e = ex.msg) := by
  constructor
  · intro u t s k w r d h
    obtain ⟨data, full, hext, hgem, hkey, hu, ht, hd, hs, hk, hw, hr⟩ :=
      process_page_ok_inv env u t s k w r d h
    exact ⟨hu, ⟨data, hext, ht⟩,
      ⟨full, hgem, hs, fun hf => by rw [hs]; exact summarizeParse_summary_ne full hf⟩⟩
  · exact fun e h => process_page_fail_inv env e h

/-- C3 witness: a successful run with a non-empty model response yields a
success envelope with the request URL and a non-empty summary. -/
theorem C3_witness_success_envelope :
    process_page okResponseEnv =
      .ok "https://example.com/article" "" "hello world" [] 2 0
        ⟨none, some "body text", none⟩ ∧
    ("https://example.com/article" : String) = okResponseEnv.url ∧
    (∃ full, okResponseEnv.gem = .ok full ∧
      ("hello world" : String) = (summarizeParse full).summary ∧
      (full ≠ "" → ("hello world" : String) ≠ "")) := by
  have hok : process_page okResponseEnv =
      .ok "https://example.com/article" "" "hello world" [] 2 0
        ⟨none, some "body text", none⟩ := by decide
  have h := (C3_success_and_failure_envelopes okResponseEnv).1 _ _ _ _ _ _ _ hok
  exact ⟨hok, h.1, h.2.2⟩

/-- C3 counterexample: when the model returns the empty response, the
pipeline still returns `success = true` — with an empty summary text,
refuting the claimed invariant. -/
theorem C3_counterexample_success_with_empty_summary :
    process_page emptyResponseEnv =
      .ok "https://example.com/article" "" "" [] 0 0
        ⟨none, some "body text", none⟩ := by decide

/-- C4 (amended): a success envelope's `wordCount` is the
whitespace-token count of the summary text, and its `readingTime` is
`round(wordCount / 200)` (Python banker's rounding) for positive word
counts, 0 otherwise.  The claimed 230 wpm figure is the summarizer's
internal `readingTime`; `process_page` recomputes the envelope value at
200 wpm (page_processor.py line 170) — see the counterexample. -/
theorem C4_wordcount_readingtime_200 (env : PipelineEnv)
    (u t s : String) (k : List String) (w r : Nat) (d : ScrapeData)
    (h : process_page env = .ok u t s k w r d) :
    w = (pySplitWs s).length ∧ r = (if 0 < w then pyRound w 200 else 0) := by
  obtain ⟨data, full, hext, hgem, hkey, hu, ht, hd, hs, hk, hw, hr⟩ :=
    process_page_ok_inv env u t s k w r d h
  subst hw
  exact ⟨envelopeWordCount_eq s, by rw [hr]; exact envelopeReadingTime_eq s⟩

/-- C4 witness: concrete successful run with a two-word summary. -/
theorem C4_witness_two_words :
    process_page okResponseEnv =
      .ok "https://example.com/article" "" "hello world" [] 2 0
        ⟨none, some "body text", none⟩ ∧
    (2 = (pySplitWs "hello world").length ∧
      0 = (if 0 < 2 then pyRound 2 200 else 0)) := by
  have hok : process_page okResponseEnv =
      .ok "https://example.com/article" "" "hello world" [] 2 0
        ⟨none, some "body text", none⟩ := by decide
  exact ⟨hok, C4_wordcount_readingtime_200 okResponseEnv _ _ _ _ _ _ _ hok⟩

set_option maxRecDepth 40000 in
/-- C4 counterexample: a 101-word summary yields an envelope
`readingTime` of `round(101/200) = 1`, while the claimed
`round(wordCount/230)` is 0. -/
theorem C4_counterexample_200_not_230 :
    process_page wordCountEnv =
      .ok "https://example.com/article" "" response101 [] 101 1
        ⟨none, some "body text", none⟩ ∧
    pyRound 101 230 = 0 ∧ (1 : Nat) ≠ 0 :=
  ⟨by decide, by decide, by decide⟩

/-- Helper: the local fallback always returns a document — its entire
body is guarded by `try ... except Exception` that substitutes the
placeholder. -/
theorem localScrapeFallbackE_isOk (env : AppScrapeEnv) :
    ∃ d, localScrapeFallbackE env = .ok d := by
  unfold localScrapeFallbackE tryCatchAll
  split
  · exact ⟨_, rfl⟩
  · exact ⟨_, rfl⟩

/-- Helper: `fire_crawl_scrape` either falls back to the local scraper or
passes through a 200-with-JSON remote response. -/
theorem fire_crawl_scrape_cases (env : AppScrapeEnv) :
    fire_crawl_scrape env = (localScrapeFallbackE env).map AppScrapeResult.doc ∨
    ∃ j, env.remote = .resp 200 (.ok j) ∧ fire_crawl_scrape env = .ok (.remote j) := by
  obtain ⟨d, hd⟩ := localScrapeFallbackE_isOk env
  unfold fire_crawl_scrape
  split
  · exact Or.inl rfl
  · rcases hr : env.remote with e | ⟨st, body⟩ <;> unfold tryCatchAll <;> dsimp only
    · exact Or.inl rfl
    · by_cases hst : st = 200
      · subst hst
        rw [if_neg (by simp)]
        rcases body with e | j
        · exact Or.inl rfl
        · exact Or.inr ⟨j, rfl, rfl⟩
      · rw [if_pos hst, hd]
        exact Or.inl rfl

/-- C2: the Fetcher never raises past its boundary — `fire_crawl_scrape`
always returns a value for every environment; every modelled failure of
the remote call (missing key, raised request, non-200 status, JSON
decode failure) routes to the local fallback; and when the local
scraper's own body fails, the returned document is the minimal
placeholder whose title/html/markdown carry the error message. -/
theorem C2_fetcher_never_raises (env : AppScrapeEnv) :
    (∃ res, fire_crawl_scrape env = .ok res) ∧
    (∀ e, localScrapeFallbackBody env = .error e →
        localScrapeFallbackE env = .ok (scrapePlaceholder e) ∧
        (scrapePlaceholder e).title = "Error Scraping Content" ∧
        (scrapePlaceholder e).markdown = "Error scraping content: " ++ e.msg ∧
        (scrapePlaceholder e).html =
          "<div><p>Error scraping content: " ++ e.msg ++ "</p></div>") ∧
    (env.hasKey = false →
        fire_crawl_scrape env = (localScrapeFallbackE env).map AppScrapeResult.doc) ∧
    (∀ e, env.remote = .raised e →
        fire_crawl_scrape env = (localScrapeFallbackE env).map AppScrapeResult.doc) ∧
    (∀ st body, env.remote = .resp st body → st ≠ 200 →
        fire_crawl_scrape env = (localScrapeFallbackE env).map AppScrapeResult.doc) ∧
    (∀ e, env.remote = .resp 200 (.error e) →
        fire_crawl_scrape env = (localScrapeFallbackE env).map AppScrapeResult.doc) := by
  obtain ⟨d, hd⟩ := localScrapeFallbackE_isOk env
  refine ⟨?_, ?_, ?_, ?_, ?_, ?_⟩
  · rcases fire_crawl_scrape_cases env with h | ⟨j, _, h⟩
    · exact ⟨.doc d, by rw [h, hd]; rfl⟩
    · exact ⟨.remote j, h⟩
  · intro e he
    refine ⟨?_, rfl, rfl, rfl⟩
    unfold localScrapeFallbackE tryCatchAll
    rw [he]
  · intro hk
    unfold fire_crawl_scrape
    rw [if_pos hk]
  · intro e he
    unfold fire_crawl_scrape
    split
    · rfl
    · rw [he]
      unfold tryCatchAll
      rfl
  · intro st body he hst
    unfold fire_crawl_scrape
    split
    · rfl
    · rw [he]
      unfold tryCatchAll
      dsimp only
      rw [if_pos hst, hd]
      rfl
  · intro e he
    unfold fire_crawl_scrape
    split
    · rfl
    · rw [he]
      unfold tryCatchAll
      dsimp only
      rw [if_neg (by simp)]

/-- C2 witness: with the remote call raising and the local GET failing,
the fetcher still returns a value — the placeholder document carrying
the connection error's message. -/
theorem C2_witness_total_failure :
    localScrapeFallbackBody allFailEnv = .error (.connectionError "connection refused") ∧
    localScrapeFallbackE allFailEnv =
      .ok (scrapePlaceholder (.connectionError "connection refused")) ∧
    fire_crawl_scrape allFailEnv =
      .ok (.doc (scrapePlaceholder (.connectionError "connection refused"))) ∧
    (scrapePlaceholder (.connectionError "connection refused")).markdown =
      "Error scraping content: connection refused" := by
  have hbody : localScrapeFallbackBody allFailEnv =
      .error (.connectionError "connection refused") := by decide
  have h := (C2_fetcher_never_raises allFailEnv).2.1 _ hbody
  have hfb := (C2_fetcher_never_raises allFailEnv).2.2.2.1 _ (by rfl)
  exact ⟨hbody, h.1, by rw [hfb, h.1]; rfl, h.2.2.1⟩

/-- Helper: a plain character differs from any non-plain character. -/
theorem plainChar_ne (c : Char) (hc : plainChar c = true) (d : Char)
    (hd : plainChar d = false) : c ≠ d := by
  intro h
  rw [h, hd] at hc
  exact Bool.noConfusion hc

/-- Helper: no image match starts at a plain character. -/
theorem imageMatcher_plain : ∀ c cs, plainChar c = true →
    imageMatcher (c :: cs) = none := by
  intro c cs hc
  unfold imageMatcher
  cases cs with
  | nil => rfl
  | cons d rest => exact if_neg (fun h => plainChar_ne c hc '!' (by decide) h.1)

/-- Helper: no link match starts at a plain character. -/
theorem linkMatcher_plain : ∀ c cs, plainChar c = true →
    linkMatcher (c :: cs) = none := by
  intro c cs hc
  unfold linkMatcher
  exact if_neg (fun h => plainChar_ne c hc '[' (by decide) h)

/-- Helper: no `<img>` match starts at a plain character. -/
theorem imgTagMatcher_plain : ∀ c cs, plainChar c = true →
    imgTagMatcher (c :: cs) = none := by
  intro c cs hc
  unfold imgTagMatcher
  cases cs with
  | nil => rfl
  | cons d rest =>
    cases rest with
    | nil => rfl
    | cons d2 rest2 =>
      cases rest2 with
      | nil => rfl
      | cons d3 rest3 => exact if_neg (fun h => plainChar_ne c hc '<' (by decide) h.1)

/-- Helper: no template match starts at a plain character. -/
theorem templateMatcher_plain : ∀ c cs, plainChar c = true →
    templateMatcher (c :: cs) = none := by
  intro c cs hc
  unfold templateMatcher
  cases cs with
  | nil => rfl
  | cons d rest => exact if_neg (fun h => plainChar_ne c hc '{' (by decide) h.1)

/-- Helper: no comment match starts at a plain character. -/
theorem commentMatcher_plain : ∀ c cs, plainChar c = true →
    commentMatcher (c :: cs) = none := by
  intro c cs hc
  unfold commentMatcher
  cases cs with
  | nil => rfl
  | cons d rest =>
    cases rest with
    | nil => rfl
    | cons d2 rest2 =>
      cases rest2 with
      | nil => rfl
      | cons d3 rest3 => exact if_neg (fun h => plainChar_ne c hc '<' (by decide) h.1)

/-- Helper: no citation match starts at a plain character. -/
theorem citationMatcher_plain : ∀ c cs, plainChar c = true →
    citationMatcher (c :: cs) = none := by
  intro c cs hc
  unfold citationMatcher
  exact if_neg (fun h => plainChar_ne c hc '[' (by decide) h)

/-- Helper: no horizontal-rule match starts at a plain character. -/
theorem hrMatcher_plain : ∀ c cs, plainChar c = true →
    hrMatcher (c :: cs) = none := by
  intro c cs hc
  unfold hrMatcher
  exact if_neg (fun h => plainChar_ne c hc '-' (by decide) h)

/-- Helper: no table-header match starts at a plain character. -/
theorem tableHdrMatcher_plain : ∀ c cs, plainChar c = true →
    tableHdrMatcher (c :: cs) = none := by
  intro c cs hc
  unfold tableHdrMatcher
  exact if_neg (fun h => plainChar_ne c hc '|' (by decide) h)

/-- Helper: no pipe match starts at a plain character. -/
theorem pipeMatcher_plain : ∀ c cs, plainChar c = true →
    pipeMatcher (c :: cs) = none := by
  intro c cs hc
  unfold pipeMatcher
  exact if_neg (fun h => plainChar_ne c hc '|' (by decide) h)

/-- Helper: no newline-run match starts at a plain character. -/
theorem nlMatcher_plain : ∀ c cs, plainChar c = true →
    nlMatcher (c :: cs) = none := by
  intro c cs hc
  unfold nlMatcher
  exact if_neg (fun h => plainChar_ne c hc '\n' (by decide) h)

/-- Helper: a scanner whose matcher never fires on plain characters
leaves a plain string unchanged. -/
theorem scanSub_plain (m : MatcherT)
    (hm : ∀ c cs, plainChar c = true → m (c :: cs) = none) :
    ∀ fuel l, (∀ c ∈ l, plainChar c = true) → scanSub m fuel l = l := by
  intro fuel
  induction fuel with
  | zero => intro l _; rfl
  | succ n ih =>
    intro l hl
    cases l with
    | nil => rfl
    | cons c cs =>
      unfold scanSub
      rw [hm c cs (hl c (List.mem_cons_self c cs))]
      rw [ih cs (fun x hx => hl x (List.mem_cons_of_mem c hx))]

/-- Helper: one `re.sub` step leaves a plain string unchanged. -/
theorem runSub_plain (m : MatcherT)
    (hm : ∀ c cs, plainChar c = true → m (c :: cs) = none)
    (s : String) (hs : ∀ c ∈ s.data, plainChar c = true) :
    runSub m s = s := by
  unfold runSub
  rw [scanSub_plain m hm s.data.length s.data hs]

/-- Helper: the whole cleaning chain acts as the identity on plain
strings. -/
theorem clean_content_regex_plain (s : String)
    (hs : ∀ c ∈ s.data, plainChar c = true) :
    clean_content_regex s = s := by
  unfold clean_content_regex
  rw [runSub_plain _ imageMatcher_plain s hs,
    runSub_plain _ linkMatcher_plain s hs,
    runSub_plain _ imgTagMatcher_plain s hs,
    runSub_plain _ templateMatcher_plain s hs,
    runSub_plain _ commentMatcher_plain s hs,
    runSub_plain _ citationMatcher_plain s hs,
    runSub_plain _ hrMatcher_plain s hs,
    runSub_plain _ tableHdrMatcher_plain s hs,
    runSub_plain _ pipeMatcher_plain s hs,
    runSub_plain _ nlMatcher_plain s hs]

/-- C8 (amended): the HTML-fallback cleaner is idempotent on inputs made
of letters and spaces (on which it acts as the identity); it is NOT
idempotent in general — re-cleaning can collapse nested link markup
further, see the counterexample.  The markdown-path cleaner rests on the
external markdown-it tokenizer and is outside the embeddable scope. -/
theorem C8_plain_fixed_point_idempotence (s : String)
    (hs : ∀ c ∈ s.data, plainChar c = true) :
    clean_content_regex s = s ∧
    clean_content_regex (clean_content_regex s) = clean_content_regex s := by
  have h := clean_content_regex_plain s hs
  refine ⟨h, ?_⟩
  rw [h]
  exact h

/-- C8 witness: a concrete plain string is a fixed point. -/
theorem C8_witness_plain_string :
    (∀ c ∈ ("some plain words" : String).data, plainChar c = true) ∧
    clean_content_regex "some plain words" = "some plain words" ∧
    clean_content_regex (clean_content_regex "some plain words") =
      clean_content_regex "some plain words" :=
  ⟨by decide,
    (C8_plain_fixed_point_idempotence "some plain words" (by decide)).1,
    (C8_plain_fixed_point_idempotence "some plain words" (by decide)).2⟩

/-- C8 counterexample: nested link markup cleans differently on a second
pass — `clean("[[a]](b)(c)") = "[a](c)"` but a second application gives
`"a"`, so `normalize(normalize(x)) ≠ normalize(x)`. -/
theorem C8_counterexample_not_idempotent :
    clean_content_regex "[[a]](b)(c)" = "[a](c)" ∧
    clean_content_regex (clean_content_regex "[[a]](b)(c)") = "a" ∧
    clean_content_regex (clean_content_regex "[[a]](b)(c)") ≠
      clean_content_regex "[[a]](b)(c)" := by decide

/-- Helper: the squared norm of a frequency vector over a superset of
its words is zero exactly when no word survived the stop-word filter. -/
theorem sumSq_freqVec_eq_zero (words allW : List String)
    (hsub : ∀ w ∈ words, w ∈ allW) :
    sumSq (freqVec words allW) = 0 ↔ words = [] := by
  constructor
  · intro h
    by_contra hne
    obtain ⟨w, hw⟩ := List.exists_mem_of_ne_nil words hne
    have hmem : (words.count w) * (words.count w) ∈
        (freqVec words allW).map (fun x => x * x) :=
      List.mem_map_of_mem _ (List.mem_map_of_mem _ (hsub w hw))
    have hz := List.sum_eq_zero_iff.mp h _ hmem
    have hpos : 0 < words.count w := List.count_pos_iff.mpr hw
    have : 0 < words.count w * words.count w := Nat.mul_pos hpos hpos
    omega
  · intro h
    subst h
    apply List.sum_eq_zero
    intro x hx
    simp only [freqVec, List.map_map, List.mem_map] at hx
    obtain ⟨w, hw, rfl⟩ := hx
    simp

/-- C10: `sentence_similarity` is total — whenever either sentence's
stop-word-filtered frequency vector has zero magnitude (equivalently, no
word survives the filter) the function returns 0 instead of dividing;
when both magnitudes are positive it returns the cosine
`dot / (√(Σ v1²) · √(Σ v2²))` and the denominator of that division is
provably nonzero. -/
theorem C10_sentence_similarity_guard (sent1 sent2 : String) (stop : List String) :
    (sumSq (simVec1 sent1 sent2 stop) = 0 ∨ sumSq (simVec2 sent1 sent2 stop) = 0 →
      sentence_similarity sent1 sent2 stop = 0) ∧
    (sumSq (simVec1 sent1 sent2 stop) ≠ 0 → sumSq (simVec2 sent1 sent2 stop) ≠ 0 →
      sentence_similarity sent1 sent2 stop =
        (sumDot (simVec1 sent1 sent2 stop) (simVec2 sent1 sent2 stop) : ℝ) /
          (Real.sqrt (sumSq (simVec1 sent1 sent2 stop)) *
            Real.sqrt (sumSq (simVec2 sent1 sent2 stop))) ∧
      Real.sqrt (sumSq (simVec1 sent1 sent2 stop)) *
        Real.sqrt (sumSq (simVec2 sent1 sent2 stop)) ≠ 0) ∧
    (sumSq (simVec1 sent1 sent2 stop) = 0 ↔ filteredWords sent1 stop = []) ∧
    (sumSq (simVec2 sent1 sent2 stop) = 0 ↔ filteredWords sent2 stop = []) := by
  refine ⟨?_, ?_, ?_, ?_⟩
  · intro h
    unfold sentence_similarity
    rw [if_neg]
    rintro ⟨h1, h2⟩
    rcases h with h | h
    · rw [h] at h1
      simp at h1
    · rw [h] at h2
      simp at h2
  · intro h1 h2
    have hp1 : (0 : ℝ) < Real.sqrt (sumSq (simVec1 sent1 sent2 stop)) :=
      Real.sqrt_pos.mpr (Nat.cast_pos.mpr (Nat.pos_of_ne_zero h1))
    have hp2 : (0 : ℝ) < Real.sqrt (sumSq (simVec2 sent1 sent2 stop)) :=
      Real.sqrt_pos.mpr (Nat.cast_pos.mpr (Nat.pos_of_ne_zero h2))
    constructor
    · unfold sentence_similarity
      rw [if_pos ⟨hp1, hp2⟩]
    · exact ne_of_gt (mul_pos hp1 hp2)
  · exact sumSq_freqVec_eq_zero _ _
      (fun w hw => List.mem_dedup.mpr (List.mem_append_left _ hw))
  · exact sumSq_freqVec_eq_zero _ _
      (fun w hw => List.mem_dedup.mpr (List.mem_append_right _ hw))

/-- C10 witness: with stop word "the", the sentence "the" filters to no
words, so the similarity is 0 (the guard takes the zero branch). -/
theorem C10_witness_zero_vector :
    sumSq (simVec1 "the" "cat runs" ["the"]) = 0 ∧
    sentence_similarity "the" "cat runs" ["the"] = 0 :=
  ⟨by decide,
    (C10_sentence_similarity_guard "the" "cat runs" ["the"]).1 (Or.inl (by decide))⟩

/-- C7: with at most 5 tokenized sentences the extractive fallback
returns all sentences joined; with more than 5 it returns exactly 5 of
the `(score, index, sentence)` triples, re-ordered by original position
(indices strictly increasing), taken from the enumeration, and maximal
in rank: every non-selected triple ranks below (or ties with a smaller
index than) every selected one under the descending sort order. -/
theorem C7_extractive_selection (sentences : List String) (scores : Nat → ℚ) :
    (sentences.length ≤ 5 →
      extractive_summarization sentences scores 5 = joinSpace sentences) ∧
    (5 < sentences.length → ∃ chosen : List RankedSent,
      extractive_summarization sentences scores 5 =
        joinSpace (chosen.map RankedSent.sent) ∧
      chosen.length = 5 ∧
      List.Pairwise (fun a b => a.idx < b.idx) chosen ∧
      (∀ a ∈ chosen, a ∈ enumRanked sentences scores) ∧
      (∀ b ∈ enumRanked sentences scores,
        (∀ a ∈ chosen, a.idx ≠ b.idx) → ∀ a ∈ chosen, rankDescRel a b)) := by
  constructor
  · intro h
    unfold extractive_summarization
    rw [if_pos h]
  · intro h
    unfold extractive_summarization
    rw [if_neg (by omega)]
    refine ⟨List.insertionSort idxLeRel
      ((List.insertionSort rankDescRel (enumRanked sentences scores)).take 5),
      rfl, ?_, ?_, ?_, ?_⟩
    all_goals
      have hlenr : (List.insertionSort rankDescRel (enumRanked sentences scores)).length =
          sentences.length := by
        rw [List.length_insertionSort]
        unfold enumRanked
        rw [List.length_map, List.enum_length]
      have hperm_r : (List.insertionSort rankDescRel (enumRanked sentences scores)).Perm
          (enumRanked sentences scores) := List.perm_insertionSort _ _
      have hperm_c : (List.insertionSort idxLeRel
          ((List.insertionSort rankDescRel (enumRanked sentences scores)).take 5)).Perm
          ((List.insertionSort rankDescRel (enumRanked sentences scores)).take 5) :=
        List.perm_insertionSort _ _
    · rw [List.length_insertionSort, List.length_take, hlenr]
      omega
    · have hmapenum : (enumRanked sentences scores).map RankedSent.idx =
          List.range sentences.length := by
        unfold enumRanked
        rw [List.map_map]
        rw [show (RankedSent.idx ∘ fun p : Nat × String =>
          (⟨scores p.1, p.1, p.2⟩ : RankedSent)) = Prod.fst from rfl]
        exact List.enum_map_fst _
      have hnd_enum : ((enumRanked sentences scores).map RankedSent.idx).Nodup := by
        rw [hmapenum]
        exact List.nodup_range _
      have hnd_r : ((List.insertionSort rankDescRel
          (enumRanked sentences scores)).map RankedSent.idx).Nodup :=
        ((hperm_r.map _).nodup_iff).mpr hnd_enum
      have hnd_top : (((List.insertionSort rankDescRel
          (enumRanked sentences scores)).take 5).map RankedSent.idx).Nodup :=
        ((List.take_sublist 5 _).map _).nodup hnd_r
      have hnd_c : ((List.insertionSort idxLeRel
          ((List.insertionSort rankDescRel (enumRanked sentences scores)).take 5)).map
            RankedSent.idx).Nodup :=
        ((hperm_c.map _).nodup_iff).mpr hnd_top
      have hpne : List.Pairwise (fun a b : RankedSent => a.idx ≠ b.idx)
          (List.insertionSort idxLeRel
            ((List.insertionSort rankDescRel (enumRanked sentences scores)).take 5)) :=
        List.pairwise_map.mp hnd_c
      have hsorted : List.Pairwise idxLeRel
          (List.insertionSort idxLeRel
            ((List.insertionSort rankDescRel (enumRanked sentences scores)).take 5)) :=
        List.sorted_insertionSort idxLeRel _
      exact (hsorted.and hpne).imp (fun hab => Nat.lt_of_le_of_ne hab.1 hab.2)
    · intro a ha
      have ha1 : a ∈ (List.insertionSort rankDescRel
          (enumRanked sentences scores)).take 5 := (hperm_c.mem_iff).mp ha
      have ha2 : a ∈ List.insertionSort rankDescRel (enumRanked sentences scores) :=
        (List.take_sublist 5 _).subset ha1
      exact (hperm_r.mem_iff).mp ha2
    · intro b hb hbne a ha
      have hb1 : b ∈ List.insertionSort rankDescRel (enumRanked sentences scores) :=
        (hperm_r.mem_iff).mpr hb
      have hb2 : b ∈ (List.insertionSort rankDescRel
            (enumRanked sentences scores)).take 5 ∨
          b ∈ (List.insertionSort rankDescRel (enumRanked sentences scores)).drop 5 := by
        rw [← List.mem_append, List.take_append_drop]
        exact hb1
      rcases hb2 with hb2 | hb2
      · exact absurd rfl (hbne b ((hperm_c.mem_iff).mpr hb2))
      · have ha1 : a ∈ (List.insertionSort rankDescRel
            (enumRanked sentences scores)).take 5 := (hperm_c.mem_iff).mp ha
        exact (List.sorted_insertionSort rankDescRel
          (enumRanked sentences scores)).rel_of_mem_take_of_mem_drop ha1 hb2

/-- C7 witness: six synthetic sentences with increasing scores yield a
selection of exactly 5 in source order; two sentences are returned
verbatim joined. -/
theorem C7_witness_six_sentences :
    5 < sixSentences.length ∧
    (∃ chosen : List RankedSent,
      extractive_summarization sixSentences sixScores 5 =
        joinSpace (chosen.map RankedSent.sent) ∧
      chosen.length = 5 ∧
      List.Pairwise (fun a b => a.idx < b.idx) chosen ∧
      (∀ a ∈ chosen, a ∈ enumRanked sixSentences sixScores) ∧
      (∀ b ∈ enumRanked sixSentences sixScores,
        (∀ a ∈ chosen, a.idx ≠ b.idx) → ∀ a ∈ chosen, rankDescRel a b)) ∧
    (["a.", "b."] : List String).length ≤ 5 ∧
    extractive_summarization ["a.", "b."] sixScores 5 = joinSpace ["a.", "b."] :=
  ⟨by decide, (C7_extractive_selection sixSentences sixScores).2 (by decide),
    by decide, (C7_extractive_selection ["a.", "b."] sixScores).1 (by decide)⟩
